import Mathlib

/-!
Verification of the valuation engine of the corporate-reports repository
(`src/corporate_reports/valuation.py`).

The Python module is shallowly embedded below.  Python floats are modelled
as exact rationals (`ℚ`), Python `None` as `Option.none`, and Python
exceptions as an explicit `Except` result:

* `KeyError` on a missing required dictionary key, and the module's own
  `ValuationError` (carrying its message string), and `ZeroDivisionError`
  for an unguarded division by zero, become the three constructors of
  `PyErr`.
* Python's `round(x, n)` (round half to even on the scaled value) becomes
  `pyRound`.

The specification's error taxonomy speaks of error *kinds* rather than
exception types; the predicates `PyErr.isMissingRequiredField` and
`PyErr.isInvalidDivisor` classify the embedded errors into the spec's
`MissingRequiredField` and `InvalidDivisor` kinds (a `ValuationError` is
classified by the message the code attaches at each raise site).
-/

/-- Errors a valuation-engine call can raise: a `KeyError` naming the
missing dictionary key, a `ValuationError` with its message, or a
`ZeroDivisionError` from an unguarded division. -/
inductive PyErr where
  | keyError (field : String)
  | valuationError (msg : String)
  | zeroDivisionError
deriving DecidableEq

/-- Message of the `ValuationError` raised when both share-count fields are
absent (valuation.py line 57). -/
def sharesRequiredMsg : String :=
  "shares_outstanding_ex_treasury または shares_outstanding が必要です"

/-- Message of the `ValuationError` raised by `calc_pbr` on a zero BPS
(valuation.py line 131). -/
def bpsMsg : String := "BPSが0です"

/-- Message of the `ValuationError` raised by `_calc_dcf_scenario` on a zero
discount rate (valuation.py line 206). -/
def discountMsg : String := "割引率が0です"

/-- Spec error kind `MissingRequiredField` (spec section 7): a `KeyError` on a
required input key, or the `ValuationError` raised when both share-count
fields are absent. -/
def PyErr.isMissingRequiredField : PyErr → Bool
  | .keyError _ => true
  | .valuationError m => m == sharesRequiredMsg
  | .zeroDivisionError => false

/-- Spec error kind `InvalidDivisor` (spec section 7): the `ValuationError`
raised on a zero book value per share or a zero discount rate. -/
def PyErr.isInvalidDivisor : PyErr → Bool
  | .keyError _ => false
  | .valuationError m => m == bpsMsg || m == discountMsg
  | .zeroDivisionError => false

/-- Python's division: raises `ZeroDivisionError` on a zero divisor. -/
def pydiv (a b : ℚ) : Except PyErr ℚ :=
  if b = 0 then .error .zeroDivisionError else .ok (a / b)

/-- Python's `round(x, digits)`: round half to even after scaling by
`10 ^ digits`.  `rhe` is the integer-valued round-half-to-even. -/
def rhe (q : ℚ) : ℤ :=
  if q - (⌊q⌋ : ℚ) < 1 / 2 then ⌊q⌋
  else if (1 : ℚ) / 2 < q - (⌊q⌋ : ℚ) then ⌊q⌋ + 1
  else if ⌊q⌋ % 2 = 0 then ⌊q⌋ else ⌊q⌋ + 1

/-- Python's `round(x, digits)` on the rational model. -/
def pyRound (digits : ℕ) (x : ℚ) : ℚ :=
  (rhe (x * 10 ^ digits) : ℚ) / 10 ^ digits

/-- Membership test for a contiguous character pattern at the head of a
character list. -/
def listStarts : List Char → List Char → Bool
  | [], _ => true
  | _ :: _, [] => false
  | p :: ps, t :: ts => p = t && listStarts ps ts

/-- Membership test for a contiguous character pattern anywhere in a
character list. -/
def listHas (pat : List Char) : List Char → Bool
  | [] => listStarts pat []
  | c :: ts => listStarts pat (c :: ts) || listHas pat ts

/-- `strHas pat s` holds when `pat` occurs contiguously inside `s`. -/
def strHas (pat s : String) : Bool := listHas pat.data s.data

/-- The loosely-typed raw facts mapping handed to
`ValuationInput.from_dict` (spec's RawFinancialFacts): every key the code
looks up, each possibly absent. -/
structure RawFacts where
  shares_outstanding_ex_treasury : Option ℚ := none
  shares_outstanding : Option ℚ := none
  treasury_shares : Option ℚ := none
  shares_unit : Option String := none
  stock_price : Option ℚ := none
  bps : Option ℚ := none
  eps_actual : Option ℚ := none
  eps_forecast : Option ℚ := none
  dividend_annual : Option ℚ := none
  revenue : Option ℚ := none
  operating_profit : Option ℚ := none
  net_income : Option ℚ := none
  operating_cf : Option ℚ := none
  fcf : Option ℚ := none
  net_cash : Option ℚ := none
  ebitda : Option ℚ := none
  net_assets : Option ℚ := none
  effective_tax_rate : Option ℚ := none
  discount_rate : Option ℚ := none
  liquidation_value_per_share : Option ℚ := none
  dcf_growth_middle : Option ℚ := none
  dcf_growth_strong : Option ℚ := none
  dcf_years : Option ℕ := none
deriving DecidableEq

/-- The normalized input dataclass `ValuationInput` (valuation.py lines
19-47). -/
structure ValuationInput where
  stock_price : ℚ
  shares : ℚ
  bps : ℚ
  eps_actual : Option ℚ
  eps_forecast : Option ℚ
  dividend_annual : Option ℚ
  revenue : ℚ
  operating_profit : ℚ
  net_income : ℚ
  operating_cf : ℚ
  fcf : ℚ
  net_cash : ℚ
  ebitda : ℚ
  net_assets : ℚ
  effective_tax_rate : ℚ
  discount_rate : ℚ
  liquidation_value_per_share : Option ℚ
  dcf_growth_middle : ℚ
  dcf_growth_strong : ℚ
  dcf_years : ℕ
deriving DecidableEq

/-- `data[name]`: a required dictionary lookup, raising `KeyError` when the
key is absent. -/
def getReq (o : Option ℚ) (name : String) : Except PyErr ℚ :=
  match o with
  | some v => .ok v
  | none => .error (.keyError name)

/-- Share-count resolution (valuation.py lines 52-60): the explicit
ex-treasury count when present, else outstanding minus treasury (treasury
defaulting to 0), else a `ValuationError` naming both acceptable fields. -/
def resolveSharesRaw (d : RawFacts) : Except PyErr ℚ :=
  match d.shares_outstanding_ex_treasury with
  | some v => .ok v
  | none =>
    match d.shares_outstanding with
    | none => .error (.valuationError sharesRequiredMsg)
    | some o => .ok (o - d.treasury_shares.getD 0)

/-- `normalize_millions` (valuation.py lines 70-75): magnitudes above
1,000,000 are rescaled down by 1000.  The Python helper also accepts `None`
and returns it unchanged, but every call site feeds it a required lookup,
so the `None` branch is unreachable and the embedding takes `ℚ`. -/
def normalize_millions (val : ℚ) : ℚ :=
  if 1000000 < |val| then val / 1000 else val

/-- `ValuationInput.from_dict` (valuation.py lines 49-98): share-count
resolution, thousands-to-shares conversion, required lookups (in the
evaluation order of the Python call), the monetary rescale heuristic, and
the documented defaults for the optional rate fields. -/
def ValuationInput.from_dict (d : RawFacts) : Except PyErr ValuationInput := do
  let shares_raw ← resolveSharesRaw d
  let shares := if d.shares_unit = some "thousands" then shares_raw * 1000 else shares_raw
  let stock_price ← getReq d.stock_price "stock_price"
  let bps ← getReq d.bps "bps"
  let revenue ← getReq d.revenue "revenue"
  let operating_profit ← getReq d.operating_profit "operating_profit"
  let net_income ← getReq d.net_income "net_income"
  let operating_cf ← getReq d.operating_cf "operating_cf"
  let fcf ← getReq d.fcf "fcf"
  let net_cash ← getReq d.net_cash "net_cash"
  let ebitda ← getReq d.ebitda "ebitda"
  let net_assets ← getReq d.net_assets "net_assets"
  pure {
    stock_price := stock_price
    shares := shares
    bps := bps
    eps_actual := d.eps_actual
    eps_forecast := d.eps_forecast
    dividend_annual := d.dividend_annual
    revenue := revenue
    operating_profit := operating_profit
    net_income := net_income
    operating_cf := normalize_millions operating_cf
    fcf := normalize_millions fcf
    net_cash := normalize_millions net_cash
    ebitda := normalize_millions ebitda
    net_assets := normalize_millions net_assets
    effective_tax_rate := d.effective_tax_rate.getD (3 / 10)
    discount_rate := d.discount_rate.getD (1 / 10)
    liquidation_value_per_share := d.liquidation_value_per_share
    dcf_growth_middle := d.dcf_growth_middle.getD (1 / 20)
    dcf_growth_strong := d.dcf_growth_strong.getD (1 / 10)
    dcf_years := d.dcf_years.getD 5 }

/-- The per-scenario result dataclass `DCFResult` (valuation.py lines
101-110). -/
structure DCFResult where
  label : String
  growth_rate : ℚ
  terminal_value : ℚ
  equity_value : ℚ
  per_share : ℚ
  upside : ℚ
deriving DecidableEq

/-- `calc_market_cap` (valuation.py lines 116-118). -/
def calc_market_cap (price shares : ℚ) : ℚ := price * shares / 1000000

/-- `calc_per` (valuation.py lines 121-125). -/
def calc_per (price : ℚ) (eps : Option ℚ) : Option ℚ :=
  match eps with
  | none => none
  | some e => if e = 0 then none else some (price / e)

/-- `calc_pbr` (valuation.py lines 128-132). -/
def calc_pbr (price bps : ℚ) : Except PyErr ℚ :=
  if bps = 0 then .error (.valuationError bpsMsg) else .ok (price / bps)

/-- `calc_pcr` (valuation.py lines 135-139). -/
def calc_pcr (market_cap : ℚ) (operating_cf : Option ℚ) : Option ℚ :=
  match operating_cf with
  | none => none
  | some v => if v ≤ 0 then none else some (market_cap / v)

/-- `calc_psr` (valuation.py lines 142-146). -/
def calc_psr (market_cap : ℚ) (revenue : Option ℚ) : Option ℚ :=
  match revenue with
  | none => none
  | some v => if v ≤ 0 then none else some (market_cap / v)

/-- `calc_dividend_yield` (valuation.py lines 149-153). -/
def calc_dividend_yield (dividend : Option ℚ) (price : ℚ) : Option ℚ :=
  match dividend with
  | none => none
  | some dv => if price = 0 then none else some (dv / price)

/-- `calc_ev_ebitda` (valuation.py lines 156-161). -/
def calc_ev_ebitda (market_cap net_cash : ℚ) (ebitda : Option ℚ) : Option ℚ :=
  match ebitda with
  | none => none
  | some e => if e ≤ 0 then none else some ((market_cap - net_cash) / e)

/-- `calc_nopat` (valuation.py lines 164-166). -/
def calc_nopat (operating_profit tax_rate : ℚ) : ℚ :=
  operating_profit * (1 - tax_rate)

/-- `calc_invested_capital` (valuation.py lines 169-171). -/
def calc_invested_capital (net_assets net_cash : ℚ) : ℚ := net_assets - net_cash

/-- `calc_roic` (valuation.py lines 174-178). -/
def calc_roic (nopat : ℚ) (invested_capital : Option ℚ) : Option ℚ :=
  match invested_capital with
  | none => none
  | some ic => if ic ≤ 0 then none else some (nopat / ic)

/-- `calc_liquidation_discount` (valuation.py lines 181-187). -/
def calc_liquidation_discount (lvps : Option ℚ) (price : ℚ) : Option ℚ :=
  match lvps with
  | none => none
  | some lv => if lv = 0 then none else some ((lv - price) / lv)

/-- The projection loop of `_calc_dcf_scenario` (valuation.py lines
214-218): iterates the remaining number of years, carrying the current
year index, the accumulated present value and the cumulatively compounded
cash flow. -/
def dcfLoop (g r : ℚ) : ℕ → ℕ → ℚ → ℚ → Except PyErr (ℚ × ℚ)
  | 0, _, pv, proj => .ok (pv, proj)
  | n + 1, year, pv, proj =>
    let proj2 := proj * (1 + g)
    match pydiv proj2 ((1 + r) ^ year) with
    | .error e => .error e
    | .ok q => dcfLoop g r n (year + 1) (pv + q) proj2

/-- The branch of `_calc_dcf_scenario` computing (terminal value, equity
value) (valuation.py lines 208-224): single-stage perpetuity at zero
growth, else discounted projection plus discounted terminal value. -/
def dcfBranch (fcf g r nc : ℚ) (years : ℕ) : Except PyErr (ℚ × ℚ) :=
  if g = 0 then do
    let tv ← pydiv fcf r
    pure (tv, tv + nc)
  else do
    let res ← dcfLoop g r years 1 0 fcf
    let tv ← pydiv res.2 r
    let pvT ← pydiv tv ((1 + r) ^ years)
    pure (tv, res.1 + pvT + nc)

/-- `_calc_dcf_scenario` (valuation.py lines 190-236): zero-discount guard,
branch on the growth rate, then per-share value and upside with the coded
roundings. -/
def calcDcfScenario (fcf g r : ℚ) (years : ℕ) (nc sh pr : ℚ) (lb : String) :
    Except PyErr DCFResult :=
  if r = 0 then .error (.valuationError discountMsg)
  else do
    let tvev ← dcfBranch fcf g r nc years
    let ps ← pydiv (tvev.2 * 1000000) sh
    let up ← pydiv (ps - pr) pr
    pure {
      label := lb
      growth_rate := g
      terminal_value := tvev.1
      equity_value := tvev.2
      per_share := pyRound 0 ps
      upside := pyRound 4 up }

/-- One entry of the `"dcf"` list in the result dictionary (valuation.py
lines 320-327): terminal and equity value rounded to 2 decimals, per-share
and upside kept as stored in the `DCFResult`. -/
structure DCFEntry where
  label : String
  growth_rate : ℚ
  terminal_value : ℚ
  equity_value : ℚ
  per_share : ℚ
  upside : ℚ
deriving DecidableEq

/-- The `_round` helper of `calculate_valuation` (valuation.py lines
298-301) on optional values. -/
def round_opt (digits : ℕ) (v : Option ℚ) : Option ℚ := v.map (pyRound digits)

/-- The result dictionary of `calculate_valuation` (valuation.py lines
303-330), one field per key. -/
structure ValuationOutput where
  stock_price : ℚ
  shares : ℚ
  market_cap : ℚ
  per_actual : Option ℚ
  per_forecast : Option ℚ
  pbr : ℚ
  pcr : Option ℚ
  psr : Option ℚ
  dividend_yield : Option ℚ
  per_x_pbr : Option ℚ
  ev_ebitda : Option ℚ
  nopat : ℚ
  invested_capital : ℚ
  roic : Option ℚ
  liquidation_discount : Option ℚ
  dcf : List DCFEntry
deriving DecidableEq

/-- Conversion of a `DCFResult` into its result-dictionary entry
(valuation.py lines 320-327). -/
def dcfEntry (d : DCFResult) : DCFEntry :=
  { label := d.label
    growth_rate := d.growth_rate
    terminal_value := pyRound 2 d.terminal_value
    equity_value := pyRound 2 d.equity_value
    per_share := d.per_share
    upside := d.upside }

/-- `calculate_valuation` (valuation.py lines 242-330): every ratio once,
the three DCF scenarios with growth 0 / middle / strong and shared
discount rate, horizon, cash flow, net cash, share count and price, then
the fixed-shape result with the coded roundings. -/
def calculate_valuation (inp : ValuationInput) : Except PyErr ValuationOutput := do
  let mcap := calc_market_cap inp.stock_price inp.shares
  let per_actual := calc_per inp.stock_price inp.eps_actual
  let per_forecast := calc_per inp.stock_price inp.eps_forecast
  let pbr ← calc_pbr inp.stock_price inp.bps
  let pcr := calc_pcr mcap (some inp.operating_cf)
  let psr := calc_psr mcap (some inp.revenue)
  let div_yield := calc_dividend_yield inp.dividend_annual inp.stock_price
  let ev_ebitda := calc_ev_ebitda mcap inp.net_cash (some inp.ebitda)
  let nopat := calc_nopat inp.operating_profit inp.effective_tax_rate
  let ic := calc_invested_capital inp.net_assets inp.net_cash
  let roic := calc_roic nopat (some ic)
  let liq := calc_liquidation_discount inp.liquidation_value_per_share inp.stock_price
  let per_pbr := match per_forecast with
    | none => none
    | some pf => some (pf * pbr)
  let dcf_bear ← calcDcfScenario inp.fcf 0 inp.discount_rate inp.dcf_years
    inp.net_cash inp.shares inp.stock_price "弱気"
  let dcf_middle ← calcDcfScenario inp.fcf inp.dcf_growth_middle inp.discount_rate
    inp.dcf_years inp.net_cash inp.shares inp.stock_price "ミドル"
  let dcf_strong ← calcDcfScenario inp.fcf inp.dcf_growth_strong inp.discount_rate
    inp.dcf_years inp.net_cash inp.shares inp.stock_price "強気"
  pure {
    stock_price := inp.stock_price
    shares := inp.shares
    market_cap := pyRound 2 mcap
    per_actual := round_opt 2 per_actual
    per_forecast := round_opt 2 per_forecast
    pbr := pyRound 2 pbr
    pcr := round_opt 2 pcr
    psr := round_opt 2 psr
    dividend_yield := round_opt 4 div_yield
    per_x_pbr := round_opt 2 per_pbr
    ev_ebitda := round_opt 2 ev_ebitda
    nopat := pyRound 2 nopat
    invested_capital := pyRound 2 ic
    roic := round_opt 4 roic
    liquidation_discount := round_opt 4 liq
    dcf := [dcfEntry dcf_bear, dcfEntry dcf_middle, dcfEntry dcf_strong] }

/-- Closed form of the terminal value computed by `_calc_dcf_scenario`,
stated from the spec's description of the two branches. -/
def dcfTV (fcf g r : ℚ) (n : ℕ) : ℚ :=
  if g = 0 then fcf / r else fcf * (1 + g) ^ n / r

/-- Closed form of the nonzero-growth equity value, stated from the spec's
description: discounted projected cash flows, discounted terminal value,
net cash. -/
def dcfEVgrow (fcf g r nc : ℚ) (n : ℕ) : ℚ :=
  (∑ t ∈ Finset.range n, fcf * (1 + g) ^ (t + 1) / (1 + r) ^ (t + 1)) +
    (fcf * (1 + g) ^ n / r) / (1 + r) ^ n + nc

/-- Closed form of the equity value computed by `_calc_dcf_scenario`. -/
def dcfEV (fcf g r nc : ℚ) (n : ℕ) : ℚ :=
  if g = 0 then fcf / r + nc else dcfEVgrow fcf g r nc n

deriving instance DecidableEq for Except

/-! ### Concrete inputs used as witnesses and counterexamples -/

/-- A raw facts mapping supplying only a share count: every required
monetary field is absent. -/
def rawMissing : RawFacts := { shares_outstanding_ex_treasury := some 1000 }

/-- A raw facts mapping with every required field present but an explicit
ex-treasury share count of zero. -/
def rawZeroShares : RawFacts := {
  shares_outstanding_ex_treasury := some 0
  stock_price := some 100
  bps := some 50
  revenue := some 200
  operating_profit := some 100
  net_income := some 50
  operating_cf := some 100
  fcf := some 100
  net_cash := some 0
  ebitda := some 100
  net_assets := some 100 }

/-- The normalized input produced from `rawZeroShares`: share count 0. -/
def inpZeroShares : ValuationInput := {
  stock_price := 100
  shares := 0
  bps := 50
  eps_actual := none
  eps_forecast := none
  dividend_annual := none
  revenue := 200
  operating_profit := 100
  net_income := 50
  operating_cf := 100
  fcf := 100
  net_cash := 0
  ebitda := 100
  net_assets := 100
  effective_tax_rate := 3 / 10
  discount_rate := 1 / 10
  liquidation_value_per_share := none
  dcf_growth_middle := 1 / 20
  dcf_growth_strong := 1 / 10
  dcf_years := 5 }

/-- Like `rawZeroShares` but with a positive ex-treasury share count. -/
def rawPosShares : RawFacts := {
  shares_outstanding_ex_treasury := some 5
  stock_price := some 100
  bps := some 50
  revenue := some 200
  operating_profit := some 100
  net_income := some 50
  operating_cf := some 100
  fcf := some 100
  net_cash := some 0
  ebitda := some 100
  net_assets := some 100 }

/-- The normalized input produced from `rawPosShares`: share count 5. -/
def inpPosShares : ValuationInput := {
  stock_price := 100
  shares := 5
  bps := 50
  eps_actual := none
  eps_forecast := none
  dividend_annual := none
  revenue := 200
  operating_profit := 100
  net_income := 50
  operating_cf := 100
  fcf := 100
  net_cash := 0
  ebitda := 100
  net_assets := 100
  effective_tax_rate := 3 / 10
  discount_rate := 1 / 10
  liquidation_value_per_share := none
  dcf_growth_middle := 1 / 20
  dcf_growth_strong := 1 / 10
  dcf_years := 5 }

/-- A raw facts mapping whose free cash flow is negative; all other values
are benign defaults. -/
def rawNegFcf : RawFacts := {
  shares_outstanding_ex_treasury := some 1000000
  stock_price := some 100
  bps := some 50
  revenue := some 200
  operating_profit := some 100
  net_income := some 50
  operating_cf := some 100
  fcf := some (-1000)
  net_cash := some 0
  ebitda := some 100
  net_assets := some 100 }

/-- The normalized input produced from `rawNegFcf`: free cash flow −1000,
default growth assumptions 0.05 / 0.10, default discount rate 0.10. -/
def inpNegFcf : ValuationInput := {
  stock_price := 100
  shares := 1000000
  bps := 50
  eps_actual := none
  eps_forecast := none
  dividend_annual := none
  revenue := 200
  operating_profit := 100
  net_income := 50
  operating_cf := 100
  fcf := -1000
  net_cash := 0
  ebitda := 100
  net_assets := 100
  effective_tax_rate := 3 / 10
  discount_rate := 1 / 10
  liquidation_value_per_share := none
  dcf_growth_middle := 1 / 20
  dcf_growth_strong := 1 / 10
  dcf_years := 5 }

/-- A benign normalized input with zero growth in every scenario, used to
exercise the full `calculate_valuation` pipeline. -/
def inpFlat : ValuationInput := {
  stock_price := 100
  shares := 1000000
  bps := 50
  eps_actual := none
  eps_forecast := none
  dividend_annual := none
  revenue := 200
  operating_profit := 100
  net_income := 50
  operating_cf := 100
  fcf := 100
  net_cash := 0
  ebitda := 100
  net_assets := 100
  effective_tax_rate := 3 / 10
  discount_rate := 1 / 10
  liquidation_value_per_share := none
  dcf_growth_middle := 0
  dcf_growth_strong := 0
  dcf_years := 5 }

/-- The output `calculate_valuation` produces on `inpFlat`. -/
def outFlat : ValuationOutput := {
  stock_price := 100
  shares := 1000000
  market_cap := 100
  per_actual := none
  per_forecast := none
  pbr := 2
  pcr := some 1
  psr := some (1 / 2)
  dividend_yield := none
  per_x_pbr := none
  ev_ebitda := some 1
  nopat := 70
  invested_capital := 100
  roic := some (7 / 10)
  liquidation_discount := none
  dcf := [
    { label := "弱気", growth_rate := 0, terminal_value := 1000,
      equity_value := 1000, per_share := 1000, upside := 9 },
    { label := "ミドル", growth_rate := 0, terminal_value := 1000,
      equity_value := 1000, per_share := 1000, upside := 9 },
    { label := "強気", growth_rate := 0, terminal_value := 1000,
      equity_value := 1000, per_share := 1000, upside := 9 }] }

/-! ### Rounding lemmas -/

theorem rhe_ge_floor (q : ℚ) : ⌊q⌋ ≤ rhe q := by
  unfold rhe; split_ifs <;> omega

theorem rhe_le_floor_add_one (q : ℚ) : rhe q ≤ ⌊q⌋ + 1 := by
  unfold rhe; split_ifs <;> omega

theorem rhe_mono {x y : ℚ} (h : x ≤ y) : rhe x ≤ rhe y := by
  rcases lt_or_eq_of_le (Int.floor_mono h) with hlt | heq
  · calc rhe x ≤ ⌊x⌋ + 1 := rhe_le_floor_add_one x
      _ ≤ ⌊y⌋ := by omega
      _ ≤ rhe y := rhe_ge_floor y
  · unfold rhe
    rw [heq]
    have hfx : x - (⌊y⌋ : ℚ) ≤ y - (⌊y⌋ : ℚ) := by linarith
    split_ifs <;> first | omega | linarith

theorem pyRound_mono (d : ℕ) {x y : ℚ} (h : x ≤ y) : pyRound d x ≤ pyRound d y := by
  unfold pyRound
  have hp : (0 : ℚ) < 10 ^ d := by positivity
  have hm : ((rhe (x * 10 ^ d) : ℚ)) ≤ (rhe (y * 10 ^ d) : ℚ) :=
    Int.cast_le.mpr (rhe_mono (mul_le_mul_of_nonneg_right h (le_of_lt hp)))
  gcongr

/-! ### Division and projection-loop lemmas -/

theorem pydiv_ok (a : ℚ) {b : ℚ} (h : b ≠ 0) : pydiv a b = .ok (a / b) := by
  simp [pydiv, h]

theorem pydiv_error {a b : ℚ} {e : PyErr} (h : pydiv a b = .error e) :
    e = .zeroDivisionError := by
  unfold pydiv at h
  split at h <;> simp_all

theorem dcfLoop_eq (g r : ℚ) (hr : (1 : ℚ) + r ≠ 0) :
    ∀ (m year : ℕ) (pv proj : ℚ),
      dcfLoop g r m year pv proj =
        .ok (pv + ∑ t ∈ Finset.range m, proj * (1 + g) ^ (t + 1) / (1 + r) ^ (year + t),
          proj * (1 + g) ^ m) := by
  intro m
  induction m with
  | zero => intro year pv proj; simp [dcfLoop]
  | succ n ih =>
    intro year pv proj
    have hpow : ((1 : ℚ) + r) ^ year ≠ 0 := pow_ne_zero _ hr
    simp only [dcfLoop, pydiv_ok _ hpow]
    rw [ih (year + 1) (pv + proj * (1 + g) / (1 + r) ^ year) (proj * (1 + g))]
    simp only [Except.ok.injEq, Prod.mk.injEq]
    constructor
    · have hsum : ∑ t ∈ Finset.range n,
          proj * (1 + g) * (1 + g) ^ (t + 1) / (1 + r) ^ (year + 1 + t) =
          ∑ t ∈ Finset.range n,
          proj * (1 + g) ^ (t + 1 + 1) / (1 + r) ^ (year + (t + 1)) :=
        Finset.sum_congr rfl (fun t _ => by ring)
      rw [Finset.sum_range_succ', hsum]
      simp only [pow_one, add_zero]
      ring
    · ring

theorem dcfLoop_error (g r : ℚ) :
    ∀ (m year : ℕ) (pv proj : ℚ) (e : PyErr),
      dcfLoop g r m year pv proj = .error e → e = .zeroDivisionError := by
  intro m
  induction m with
  | zero => intro year pv proj e h; simp [dcfLoop] at h
  | succ n ih =>
    intro year pv proj e h
    rw [dcfLoop] at h
    cases hp : pydiv (proj * (1 + g)) ((1 + r) ^ year) with
    | error e2 =>
      rw [hp] at h
      simp only [Except.error.injEq] at h
      exact h ▸ pydiv_error hp
    | ok q =>
      rw [hp] at h
      exact ih (year + 1) (pv + q) (proj * (1 + g)) e h

theorem dcfBranch_eq (fcf g r nc : ℚ) (n : ℕ) (hr : r ≠ 0) (hr1 : (1 : ℚ) + r ≠ 0) :
    dcfBranch fcf g r nc n = .ok (dcfTV fcf g r n, dcfEV fcf g r nc n) := by
  unfold dcfBranch dcfTV dcfEV
  by_cases hg : g = 0
  · simp [hg, pydiv_ok _ hr]
  · rw [if_neg hg, if_neg hg, if_neg hg]
    rw [dcfLoop_eq g r hr1 n 1 0 fcf]
    have hpow : ((1 : ℚ) + r) ^ n ≠ 0 := pow_ne_zero _ hr1
    simp only [bind, Except.bind, pydiv_ok _ hr, pydiv_ok _ hpow, zero_add, pure,
      Except.pure, Except.ok.injEq, Prod.mk.injEq, dcfEVgrow]
    constructor
    · trivial
    · have hsum : ∑ t ∈ Finset.range n, fcf * (1 + g) ^ (t + 1) / (1 + r) ^ (1 + t) =
          ∑ t ∈ Finset.range n, fcf * (1 + g) ^ (t + 1) / (1 + r) ^ (t + 1) :=
        Finset.sum_congr rfl (fun t _ => by rw [Nat.add_comm])
      rw [hsum]

theorem dcfBranch_error (fcf g r nc : ℚ) (n : ℕ) (e : PyErr)
    (h : dcfBranch fcf g r nc n = .error e) : e = .zeroDivisionError := by
  unfold dcfBranch at h
  split at h
  · cases hd : pydiv fcf r with
    | error e2 =>
      rw [hd] at h
      simp only [bind, Except.bind, Except.error.injEq] at h
      exact h ▸ pydiv_error hd
    | ok tv =>
      rw [hd] at h
      simp [bind, Except.bind, pure, Except.pure] at h
  · cases hl : dcfLoop g r n 1 0 fcf with
    | error e2 =>
      rw [hl] at h
      simp only [bind, Except.bind, Except.error.injEq] at h
      exact h ▸ dcfLoop_error g r n 1 0 fcf e2 hl
    | ok res =>
      rw [hl] at h
      simp only [bind, Except.bind] at h
      cases hd : pydiv res.2 r with
      | error e2 =>
        rw [hd] at h
        simp only [Except.error.injEq] at h
        exact h ▸ pydiv_error hd
      | ok tv =>
        rw [hd] at h
        simp only [bind, Except.bind] at h
        cases hd2 : pydiv tv ((1 + r) ^ n) with
        | error e2 =>
          rw [hd2] at h
          simp only [Except.error.injEq] at h
          exact h ▸ pydiv_error hd2
        | ok pvT =>
          rw [hd2] at h
          simp [pure, Except.pure] at h

theorem calcDcfScenario_eq (fcf g r : ℚ) (n : ℕ) (nc sh pr : ℚ) (lb : String)
    (hr : r ≠ 0) (hr1 : (1 : ℚ) + r ≠ 0) (hs : sh ≠ 0) (hp : pr ≠ 0) :
    calcDcfScenario fcf g r n nc sh pr lb = .ok {
      label := lb
      growth_rate := g
      terminal_value := dcfTV fcf g r n
      equity_value := dcfEV fcf g r nc n
      per_share := pyRound 0 (dcfEV fcf g r nc n * 1000000 / sh)
      upside := pyRound 4 ((dcfEV fcf g r nc n * 1000000 / sh - pr) / pr) } := by
  unfold calcDcfScenario
  rw [if_neg hr, dcfBranch_eq fcf g r nc n hr hr1]
  simp [bind, Except.bind, pydiv_ok _ hs, pydiv_ok _ hp, pure, Except.pure]

theorem calcDcfScenario_error_zero_div (fcf g r : ℚ) (n : ℕ) (nc sh pr : ℚ)
    (lb : String) (e : PyErr) (hr : r ≠ 0)
    (h : calcDcfScenario fcf g r n nc sh pr lb = .error e) :
    e = .zeroDivisionError := by
  unfold calcDcfScenario at h
  rw [if_neg hr] at h
  cases hb : dcfBranch fcf g r nc n with
  | error e2 =>
    rw [hb] at h
    simp only [bind, Except.bind, Except.error.injEq] at h
    exact h ▸ dcfBranch_error fcf g r nc n e2 hb
  | ok tvev =>
    rw [hb] at h
    simp only [bind, Except.bind] at h
    cases hd : pydiv (tvev.2 * 1000000) sh with
    | error e2 =>
      rw [hd] at h
      simp only [Except.error.injEq] at h
      exact h ▸ pydiv_error hd
    | ok ps =>
      rw [hd] at h
      simp only [bind, Except.bind] at h
      cases hd2 : pydiv (ps - pr) pr with
      | error e2 =>
        rw [hd2] at h
        simp only [Except.error.injEq] at h
        exact h ▸ pydiv_error hd2
      | ok up =>
        rw [hd2] at h
        simp [pure, Except.pure] at h

/-! ### Equity-value lemmas: the nonzero-growth formula at growth 0, and
monotonicity in the growth rate -/

theorem dcfEVgrow_zero (fcf r nc : ℚ) (hr : r ≠ 0) (hr1 : (1 : ℚ) + r ≠ 0) (n : ℕ) :
    dcfEVgrow fcf 0 r nc n = fcf / r + nc := by
  induction n with
  | zero => simp [dcfEVgrow]
  | succ n ih =>
    unfold dcfEVgrow at ih ⊢
    rw [Finset.sum_range_succ]
    simp only [add_zero, one_pow, mul_one] at ih ⊢
    have hpow : ((1 : ℚ) + r) ^ n ≠ 0 := pow_ne_zero _ hr1
    have hpow1 : ((1 : ℚ) + r) ^ (n + 1) ≠ 0 := pow_ne_zero _ hr1
    have key : fcf / (1 + r) ^ (n + 1) + (fcf / r) / (1 + r) ^ (n + 1) =
        (fcf / r) / (1 + r) ^ n := by
      rw [pow_succ]
      field_simp
      ring
    linarith [ih, key]

theorem dcfEVgrow_mono (fcf r nc : ℚ) (n : ℕ) (hf : 0 ≤ fcf) (hr : 0 < r)
    {g1 g2 : ℚ} (h1 : 0 ≤ g1) (h12 : g1 ≤ g2) :
    dcfEVgrow fcf g1 r nc n ≤ dcfEVgrow fcf g2 r nc n := by
  have h1r : (0 : ℚ) < 1 + r := by linarith
  have hg1 : (0 : ℚ) ≤ 1 + g1 := by linarith
  have hg12 : (1 : ℚ) + g1 ≤ 1 + g2 := by linarith
  unfold dcfEVgrow
  refine add_le_add (add_le_add ?_ ?_) le_rfl
  · refine Finset.sum_le_sum fun t _ => ?_
    have hp : (0 : ℚ) < (1 + r) ^ (t + 1) := pow_pos h1r _
    have hnum : fcf * (1 + g1) ^ (t + 1) ≤ fcf * (1 + g2) ^ (t + 1) :=
      mul_le_mul_of_nonneg_left (pow_le_pow_left hg1 hg12 _) hf
    exact (div_le_div_right hp).mpr hnum
  · have hp : (0 : ℚ) < (1 + r) ^ n := pow_pos h1r _
    have hnum : fcf * (1 + g1) ^ n / r ≤ fcf * (1 + g2) ^ n / r :=
      (div_le_div_right hr).mpr
        (mul_le_mul_of_nonneg_left (pow_le_pow_left hg1 hg12 _) hf)
    exact (div_le_div_right hp).mpr hnum

theorem dcfEV_mono (fcf r nc : ℚ) (n : ℕ) (hf : 0 ≤ fcf) (hr : 0 < r)
    {g1 g2 : ℚ} (h1 : 0 ≤ g1) (h12 : g1 ≤ g2) :
    dcfEV fcf g1 r nc n ≤ dcfEV fcf g2 r nc n := by
  have hr0 : r ≠ 0 := ne_of_gt hr
  have hr1 : (1 : ℚ) + r ≠ 0 := ne_of_gt (by linarith)
  unfold dcfEV
  by_cases hg1 : g1 = 0
  · subst hg1
    by_cases hg2 : g2 = 0
    · simp [hg2]
    · rw [if_pos rfl, if_neg hg2, ← dcfEVgrow_zero fcf r nc hr0 hr1 n]
      exact dcfEVgrow_mono fcf r nc n hf hr le_rfl h12
  · have hg2 : g2 ≠ 0 := by
      intro h0
      exact hg1 (le_antisymm (h0 ▸ h12) h1)
    rw [if_neg hg1, if_neg hg2]
    exact dcfEVgrow_mono fcf r nc n hf hr h1 h12

/-! ### Normalization lemmas -/

theorem bind_ok_inv {α β : Type} {m : Except PyErr α} {f : α → Except PyErr β} {b : β}
    (h : m >>= f = .ok b) : ∃ a, m = .ok a ∧ f a = .ok b := by
  cases m with
  | error e => exact absurd h (by simp [Bind.bind, Except.bind])
  | ok a => exact ⟨a, rfl, h⟩

theorem bind_error_inv {α β : Type} {m : Except PyErr α} {f : α → Except PyErr β} {e : PyErr}
    (h : m >>= f = .error e) : m = .error e ∨ ∃ a, m = .ok a ∧ f a = .error e := by
  cases m with
  | error e2 =>
    left
    simp only [Bind.bind, Except.bind, Except.error.injEq] at h
    rw [h]
  | ok a =>
    right
    simp only [Bind.bind, Except.bind] at h
    exact ⟨a, rfl, h⟩

theorem getReq_ok {o : Option ℚ} {name : String} {v : ℚ} (h : getReq o name = .ok v) :
    o = some v := by
  cases o <;> simp_all [getReq]

theorem getReq_error {o : Option ℚ} {name : String} {e : PyErr}
    (h : getReq o name = .error e) : e = .keyError name := by
  cases o <;> simp_all [getReq]

theorem resolveSharesRaw_error {d : RawFacts} {e : PyErr}
    (h : resolveSharesRaw d = .error e) : e = .valuationError sharesRequiredMsg := by
  unfold resolveSharesRaw at h
  cases hex : d.shares_outstanding_ex_treasury with
  | some v => rw [hex] at h; simp at h
  | none =>
    rw [hex] at h
    cases ho : d.shares_outstanding with
    | none => rw [ho] at h; simp_all
    | some o => rw [ho] at h; simp at h

theorem from_dict_error_kind (d : RawFacts) (e : PyErr)
    (h : ValuationInput.from_dict d = .error e) : e.isMissingRequiredField = true := by
  unfold ValuationInput.from_dict at h
  rcases bind_error_inv h with h1 | ⟨s, hs, h⟩
  · rw [resolveSharesRaw_error h1]
    simp [PyErr.isMissingRequiredField]
  rcases bind_error_inv h with h1 | ⟨x1, _, h⟩
  · rw [getReq_error h1]; rfl
  rcases bind_error_inv h with h1 | ⟨x2, _, h⟩
  · rw [getReq_error h1]; rfl
  rcases bind_error_inv h with h1 | ⟨x3, _, h⟩
  · rw [getReq_error h1]; rfl
  rcases bind_error_inv h with h1 | ⟨x4, _, h⟩
  · rw [getReq_error h1]; rfl
  rcases bind_error_inv h with h1 | ⟨x5, _, h⟩
  · rw [getReq_error h1]; rfl
  rcases bind_error_inv h with h1 | ⟨x6, _, h⟩
  · rw [getReq_error h1]; rfl
  rcases bind_error_inv h with h1 | ⟨x7, _, h⟩
  · rw [getReq_error h1]; rfl
  rcases bind_error_inv h with h1 | ⟨x8, _, h⟩
  · rw [getReq_error h1]; rfl
  rcases bind_error_inv h with h1 | ⟨x9, _, h⟩
  · rw [getReq_error h1]; rfl
  rcases bind_error_inv h with h1 | ⟨x10, _, h⟩
  · rw [getReq_error h1]; rfl
  exact absurd h (by simp [pure, Except.pure])

theorem from_dict_ok_inv (d : RawFacts) (v : ValuationInput)
    (h : ValuationInput.from_dict d = .ok v) :
    ∃ s, resolveSharesRaw d = .ok s ∧
      d.stock_price.isSome = true ∧ d.bps.isSome = true ∧ d.revenue.isSome = true ∧
      d.operating_profit.isSome = true ∧ d.net_income.isSome = true ∧
      d.operating_cf.isSome = true ∧ d.fcf.isSome = true ∧ d.net_cash.isSome = true ∧
      d.ebitda.isSome = true ∧ d.net_assets.isSome = true ∧
      v.shares = (if d.shares_unit = some "thousands" then s * 1000 else s) := by
  unfold ValuationInput.from_dict at h
  obtain ⟨s, hs, h⟩ := bind_ok_inv h
  obtain ⟨sp, h1, h⟩ := bind_ok_inv h
  obtain ⟨bp, h2, h⟩ := bind_ok_inv h
  obtain ⟨rv, h3, h⟩ := bind_ok_inv h
  obtain ⟨op, h4, h⟩ := bind_ok_inv h
  obtain ⟨ni, h5, h⟩ := bind_ok_inv h
  obtain ⟨oc, h6, h⟩ := bind_ok_inv h
  obtain ⟨fc, h7, h⟩ := bind_ok_inv h
  obtain ⟨ncc, h8, h⟩ := bind_ok_inv h
  obtain ⟨eb, h9, h⟩ := bind_ok_inv h
  obtain ⟨na, h10, h⟩ := bind_ok_inv h
  simp only [pure, Except.pure, Except.ok.injEq] at h
  refine ⟨s, hs, ?_⟩
  subst h
  simp [getReq_ok h1, getReq_ok h2, getReq_ok h3, getReq_ok h4, getReq_ok h5,
    getReq_ok h6, getReq_ok h7, getReq_ok h8, getReq_ok h9, getReq_ok h10]

theorem missing_not_invalid {e : PyErr} (h : e.isMissingRequiredField = true) :
    e.isInvalidDivisor = false := by
  cases e with
  | keyError f => rfl
  | valuationError m =>
    simp only [PyErr.isMissingRequiredField, beq_iff_eq] at h
    subst h
    decide
  | zeroDivisionError => rfl

/-! ### Zero-growth specialization of the scenario procedure -/

theorem dcfBranch_zero_eq (fcf r nc : ℚ) (n : ℕ) (hr : r ≠ 0) :
    dcfBranch fcf 0 r nc n = .ok (fcf / r, fcf / r + nc) := by
  unfold dcfBranch
  simp [pydiv_ok _ hr, bind, Except.bind, pure, Except.pure]

theorem calcDcfScenario_zero_eq (fcf r : ℚ) (n : ℕ) (nc sh pr : ℚ) (lb : String)
    (hr : r ≠ 0) (hs : sh ≠ 0) (hp : pr ≠ 0) :
    calcDcfScenario fcf 0 r n nc sh pr lb = .ok {
      label := lb
      growth_rate := 0
      terminal_value := fcf / r
      equity_value := fcf / r + nc
      per_share := pyRound 0 ((fcf / r + nc) * 1000000 / sh)
      upside := pyRound 4 (((fcf / r + nc) * 1000000 / sh - pr) / pr) } := by
  unfold calcDcfScenario
  rw [if_neg hr, dcfBranch_zero_eq fcf r nc n hr]
  simp [bind, Except.bind, pydiv_ok _ hs, pydiv_ok _ hp, pure, Except.pure]

/-! ### Claim theorems -/

/-- C1: on the zero-growth branch the scenario procedure computes terminal
value = free cash flow / discount rate and equity value = terminal value +
net cash; on the concrete bear input (fcf 5800, net cash 5486, discount
0.10, shares 33,794,000, price 1668) it yields terminal value 58,000,
equity value 63,486 and per-share value 1879. -/
theorem C1_zero_growth_dcf :
    (∀ (fcf r nc sh pr : ℚ) (n : ℕ) (lb : String), r ≠ 0 → sh ≠ 0 → pr ≠ 0 →
      ∃ d, calcDcfScenario fcf 0 r n nc sh pr lb = .ok d ∧
        d.terminal_value = fcf / r ∧ d.equity_value = fcf / r + nc) ∧
    calcDcfScenario 5800 0 (1 / 10) 5 5486 33794000 1668 "弱気" =
      .ok { label := "弱気", growth_rate := 0, terminal_value := 58000,
            equity_value := 63486, per_share := 1879, upside := 1263 / 10000 } := by
  constructor
  · intro fcf r nc sh pr n lb hr hs hp
    exact ⟨_, calcDcfScenario_zero_eq fcf r n nc sh pr lb hr hs hp, rfl, rfl⟩
  · rw [calcDcfScenario, if_neg (by norm_num),
      dcfBranch_zero_eq 5800 (1 / 10) 5486 5 (by norm_num)]
    norm_num [bind, Except.bind, pure, Except.pure, pydiv, pyRound, rhe]

/-- Witness for C1 at a further concrete zero-growth input. -/
theorem C1_zero_growth_dcf_witness :
    ∃ d, calcDcfScenario 100 0 (1 / 2) 3 7 1000000 50 "弱気" = .ok d ∧
      d.terminal_value = 100 / (1 / 2) ∧ d.equity_value = 100 / (1 / 2) + 7 :=
  C1_zero_growth_dcf.1 100 (1 / 2) 7 1000000 50 3 "弱気"
    (by norm_num) (by norm_num) (by norm_num)

/-- C2: on the nonzero-growth branch the scenario procedure sums the present
values of the cumulatively compounded cash flows fcf·(1+g)^t/(1+r)^t for
t = 1..n, sets terminal value = fcf·(1+g)^n / r, discounts it by (1+r)^n,
and adds net cash. -/
theorem C2_growth_dcf (fcf g r nc sh pr : ℚ) (n : ℕ) (lb : String)
    (hg : g ≠ 0) (hr : r ≠ 0) (hr1 : (1 : ℚ) + r ≠ 0) (hs : sh ≠ 0) (hp : pr ≠ 0) :
    ∃ d, calcDcfScenario fcf g r n nc sh pr lb = .ok d ∧
      d.terminal_value = fcf * (1 + g) ^ n / r ∧
      d.equity_value =
        (∑ t ∈ Finset.Icc 1 n, fcf * (1 + g) ^ t / (1 + r) ^ t) +
          (fcf * (1 + g) ^ n / r) / (1 + r) ^ n + nc := by
  refine ⟨_, calcDcfScenario_eq fcf g r n nc sh pr lb hr hr1 hs hp, ?_, ?_⟩
  · simp [dcfTV, hg]
  · have hsum : ∑ t ∈ Finset.Icc 1 n, fcf * (1 + g) ^ t / (1 + r) ^ t =
        ∑ t ∈ Finset.range n, fcf * (1 + g) ^ (t + 1) / (1 + r) ^ (t + 1) := by
      rw [← Nat.Ico_succ_right, Finset.sum_Ico_eq_sum_range]
      exact Finset.sum_congr rfl (fun t _ => by rw [Nat.add_comm])
    simp only [dcfEV, if_neg hg, dcfEVgrow, hsum]

/-- Witness for C2 at the concrete strong-growth input. -/
theorem C2_growth_dcf_witness :
    ∃ d, calcDcfScenario 5800 (1 / 10) (1 / 10) 5 5486 33794000 1668 "強気" = .ok d ∧
      d.terminal_value = 5800 * (1 + 1 / 10) ^ 5 / (1 / 10) ∧
      d.equity_value =
        (∑ t ∈ Finset.Icc 1 5, 5800 * ((1 : ℚ) + 1 / 10) ^ t / (1 + 1 / 10) ^ t) +
          (5800 * ((1 : ℚ) + 1 / 10) ^ 5 / (1 / 10)) / (1 + 1 / 10) ^ 5 + 5486 :=
  C2_growth_dcf 5800 (1 / 10) (1 / 10) 5486 33794000 1668 5 "強気"
    (by norm_num) (by norm_num) (by norm_num) (by norm_num) (by norm_num)

/-- C8: Price/Earnings yields the distinct no-value result for an absent or
exactly-zero EPS, and price / EPS for any other EPS, including negative. -/
theorem C8_per_no_value :
    (∀ p : ℚ, calc_per p none = none) ∧
    (∀ p : ℚ, calc_per p (some 0) = none) ∧
    (∀ p e : ℚ, e ≠ 0 → calc_per p (some e) = some (p / e)) :=
  ⟨fun _ => rfl, fun p => by simp [calc_per], fun p e he => by simp [calc_per, he]⟩

/-- Witness for C8 at a negative EPS and at a zero EPS. -/
theorem C8_per_no_value_witness :
    calc_per 1668 (some (-50)) = some (1668 / (-50)) ∧ calc_per 1668 (some 0) = none :=
  ⟨C8_per_no_value.2.2 1668 (-50) (by norm_num), C8_per_no_value.2.1 1668⟩

/-- C10: the dividend-yield function returns the no-value result at a price
of exactly zero, even when a dividend is present, instead of raising. -/
theorem C10_dividend_yield_zero_price (dv : Option ℚ) :
    calc_dividend_yield dv 0 = none := by
  cases dv <;> simp [calc_dividend_yield]

/-- C9 counterexample: at the concrete bear input the stored upside differs
from (rounded per-share − price) / price rounded to 4 decimals, because the
code computes upside from the unrounded per-share quotient. -/
theorem C9_per_share_upside_cex :
    ∃ d, calcDcfScenario 5800 0 (1 / 10) 5 5486 33794000 1668 "弱気" = .ok d ∧
      d.upside ≠ pyRound 4 ((d.per_share - 1668) / 1668) := by
  refine ⟨{ label := "弱気", growth_rate := 0, terminal_value := 58000,
            equity_value := 63486, per_share := 1879, upside := 1263 / 10000 },
    ?_, ?_⟩
  · rw [calcDcfScenario, if_neg (by norm_num),
      dcfBranch_zero_eq 5800 (1 / 10) 5486 5 (by norm_num)]
    norm_num [bind, Except.bind, pure, Except.pure, pydiv, pyRound, rhe]
  · norm_num [pyRound, rhe]

/-- C9 as amended: the stored per-share value is the equity value rescaled
by 1,000,000, divided by the share count and rounded to the nearest whole
unit; the stored upside is computed from the UNROUNDED per-share quotient,
(equity·10⁶/shares − price)/price, rounded to 4 decimals. -/
theorem C9_per_share_upside (fcf g r nc sh pr : ℚ) (n : ℕ) (lb : String)
    (hr : r ≠ 0) (hr1 : (1 : ℚ) + r ≠ 0) (hs : sh ≠ 0) (hp : pr ≠ 0) :
    ∃ d, calcDcfScenario fcf g r n nc sh pr lb = .ok d ∧
      d.per_share = pyRound 0 (d.equity_value * 1000000 / sh) ∧
      d.upside = pyRound 4 ((d.equity_value * 1000000 / sh - pr) / pr) :=
  ⟨_, calcDcfScenario_eq fcf g r n nc sh pr lb hr hr1 hs hp, rfl, rfl⟩

/-- Witness for the amended C9 at the concrete middle-growth input. -/
theorem C9_per_share_upside_witness :
    ∃ d, calcDcfScenario 5800 (1 / 20) (1 / 10) 5 5486 33794000 1668 "ミドル" = .ok d ∧
      d.per_share = pyRound 0 (d.equity_value * 1000000 / 33794000) ∧
      d.upside = pyRound 4 ((d.equity_value * 1000000 / 33794000 - 1668) / 1668) :=
  C9_per_share_upside 5800 (1 / 20) (1 / 10) 5486 33794000 1668 5 "ミドル"
    (by norm_num) (by norm_num) (by norm_num) (by norm_num)

/-! ### Concrete evaluation lemmas -/

theorem from_dict_rawZeroShares :
    ValuationInput.from_dict rawZeroShares = .ok inpZeroShares := by
  norm_num [ValuationInput.from_dict, resolveSharesRaw, getReq, normalize_millions,
    rawZeroShares, inpZeroShares, bind, Except.bind, pure, Except.pure]
  all_goals decide

theorem from_dict_rawPosShares :
    ValuationInput.from_dict rawPosShares = .ok inpPosShares := by
  norm_num [ValuationInput.from_dict, resolveSharesRaw, getReq, normalize_millions,
    rawPosShares, inpPosShares, bind, Except.bind, pure, Except.pure]
  all_goals decide

theorem from_dict_rawNegFcf :
    ValuationInput.from_dict rawNegFcf = .ok inpNegFcf := by
  norm_num [ValuationInput.from_dict, resolveSharesRaw, getReq, normalize_millions,
    rawNegFcf, inpNegFcf, bind, Except.bind, pure, Except.pure]
  all_goals decide

theorem calculate_valuation_inpNegFcf :
    (calculate_valuation inpNegFcf).map (fun o => o.dcf.map (fun d => d.per_share)) =
      .ok [-10000, -12283, -15000] := by
  have hb := calcDcfScenario_zero_eq (-1000) (1 / 10) 5 0 1000000 100 "弱気"
    (by norm_num) (by norm_num) (by norm_num)
  have hm := calcDcfScenario_eq (-1000) (1 / 20) (1 / 10) 5 0 1000000 100 "ミドル"
    (by norm_num) (by norm_num) (by norm_num) (by norm_num)
  have hst := calcDcfScenario_eq (-1000) (1 / 10) (1 / 10) 5 0 1000000 100 "強気"
    (by norm_num) (by norm_num) (by norm_num) (by norm_num)
  have hpbr : calc_pbr (100 : ℚ) 50 = .ok (100 / 50) := by norm_num [calc_pbr]
  unfold calculate_valuation
  simp only [inpNegFcf]
  rw [hpbr, hb, hm, hst]
  simp only [bind, Except.bind, pure, Except.pure, Except.map, dcfEntry,
    List.map_cons, List.map_nil]
  norm_num [dcfEV, dcfEVgrow, Finset.sum_range_succ, pyRound, rhe]

theorem calculate_valuation_inpFlat : calculate_valuation inpFlat = .ok outFlat := by
  norm_num [calculate_valuation, inpFlat, outFlat, calc_market_cap, calc_per, calc_pbr,
    calc_pcr, calc_psr, calc_dividend_yield, calc_ev_ebitda, calc_nopat,
    calc_invested_capital, calc_roic, calc_liquidation_discount,
    calcDcfScenario, dcfBranch, dcfLoop, pydiv, pyRound, rhe, dcfEntry,
    round_opt, Option.map, bind, Except.bind, pure, Except.pure]

/-! ### Remaining claim theorems -/

/-- C4: a raw facts mapping missing any of the ten required fields fails
normalization with an error of the spec's MissingRequiredField kind. -/
theorem C4_missing_required (d : RawFacts)
    (h : d.stock_price = none ∨ d.bps = none ∨ d.revenue = none ∨
      d.operating_profit = none ∨ d.net_income = none ∨ d.operating_cf = none ∨
      d.fcf = none ∨ d.net_cash = none ∨ d.ebitda = none ∨ d.net_assets = none) :
    ∃ e, ValuationInput.from_dict d = .error e ∧ e.isMissingRequiredField = true := by
  cases hfd : ValuationInput.from_dict d with
  | error e => exact ⟨e, rfl, from_dict_error_kind d e hfd⟩
  | ok v =>
    exfalso
    obtain ⟨s, _, h1, h2, h3, h4, h5, h6, h7, h8, h9, h10, _⟩ := from_dict_ok_inv d v hfd
    rcases h with h | h | h | h | h | h | h | h | h | h <;> simp_all

/-- Witness for C4: a mapping supplying only a share count. -/
theorem C4_missing_required_witness :
    ∃ e, ValuationInput.from_dict rawMissing = .error e ∧
      e.isMissingRequiredField = true :=
  C4_missing_required rawMissing (Or.inl rfl)

/-- C5 counterexample: normalization succeeds on a mapping with an explicit
ex-treasury share count of zero, producing share count 0, not a positive
one. -/
theorem C5_shares_positive_cex :
    ValuationInput.from_dict rawZeroShares = .ok inpZeroShares ∧
    ¬ 0 < inpZeroShares.shares := by
  refine ⟨from_dict_rawZeroShares, ?_⟩
  norm_num [inpZeroShares]

/-- C5 as amended: normalization does not enforce positivity; on success
the share count equals the resolved raw count (times 1000 under a
thousands unit marker), and is strictly positive exactly when that
resolved count is positive. -/
theorem C5_shares_positive (d : RawFacts) (v : ValuationInput)
    (h : ValuationInput.from_dict d = .ok v) :
    ∃ s, resolveSharesRaw d = .ok s ∧
      v.shares = (if d.shares_unit = some "thousands" then s * 1000 else s) ∧
      (0 < v.shares ↔ 0 < s) := by
  obtain ⟨s, hs, _, _, _, _, _, _, _, _, _, _, hshares⟩ := from_dict_ok_inv d v h
  refine ⟨s, hs, hshares, ?_⟩
  rw [hshares]
  split_ifs
  · constructor
    · intro hp
      linarith
    · intro hp
      linarith
  · exact Iff.rfl

/-- Witness for the amended C5 at a mapping with ex-treasury count 5. -/
theorem C5_shares_positive_witness :
    ∃ s, resolveSharesRaw rawPosShares = .ok s ∧
      inpPosShares.shares =
        (if rawPosShares.shares_unit = some "thousands" then s * 1000 else s) ∧
      (0 < inpPosShares.shares ↔ 0 < s) :=
  C5_shares_positive rawPosShares inpPosShares from_dict_rawPosShares

/-- C6: share-count resolution uses the ex-treasury count when present,
else outstanding minus treasury with treasury defaulting to 0; with both
absent, normalization raises the `ValuationError` whose message names both
`shares_outstanding_ex_treasury` and `shares_outstanding`. -/
theorem C6_share_resolution (d : RawFacts) :
    (∀ v, d.shares_outstanding_ex_treasury = some v → resolveSharesRaw d = .ok v) ∧
    (d.shares_outstanding_ex_treasury = none →
      ∀ o, d.shares_outstanding = some o →
        resolveSharesRaw d = .ok (o - d.treasury_shares.getD 0)) ∧
    (d.shares_outstanding_ex_treasury = none → d.shares_outstanding = none →
      ValuationInput.from_dict d = .error (.valuationError sharesRequiredMsg) ∧
      strHas "shares_outstanding_ex_treasury" sharesRequiredMsg = true ∧
      strHas "shares_outstanding" sharesRequiredMsg = true) := by
  refine ⟨?_, ?_, ?_⟩
  · intro v hv
    unfold resolveSharesRaw
    rw [hv]
  · intro hex o ho
    unfold resolveSharesRaw
    rw [hex, ho]
  · intro hex ho
    have hres : resolveSharesRaw d = .error (.valuationError sharesRequiredMsg) := by
      unfold resolveSharesRaw
      rw [hex, ho]
    refine ⟨?_, by decide, by decide⟩
    unfold ValuationInput.from_dict
    rw [hres]
    simp [bind, Except.bind]

/-- Witness for C6 at the empty raw facts mapping. -/
theorem C6_share_resolution_witness :
    ValuationInput.from_dict {} = .error (.valuationError sharesRequiredMsg) ∧
      strHas "shares_outstanding_ex_treasury" sharesRequiredMsg = true ∧
      strHas "shares_outstanding" sharesRequiredMsg = true :=
  (C6_share_resolution {}).2.2 rfl rfl

/-- C7: the only InvalidDivisor-kind errors are a zero book value per share
in `calc_pbr` and a zero discount rate in the scenario procedure, raised
before any division; with a nonzero book value per share `calc_pbr` returns
price / bps, and with a nonzero discount rate any scenario error is a bare
division-by-zero, never InvalidDivisor; normalization never raises
InvalidDivisor either. -/
theorem C7_invalid_divisor :
    (∀ p : ℚ, calc_pbr p 0 = .error (.valuationError bpsMsg) ∧
      (PyErr.valuationError bpsMsg).isInvalidDivisor = true) ∧
    (∀ p b : ℚ, b ≠ 0 → calc_pbr p b = .ok (p / b)) ∧
    (∀ (fcf g r nc sh pr : ℚ) (n : ℕ) (lb : String), r = 0 →
      calcDcfScenario fcf g r n nc sh pr lb = .error (.valuationError discountMsg) ∧
      (PyErr.valuationError discountMsg).isInvalidDivisor = true) ∧
    (∀ (fcf g r nc sh pr : ℚ) (n : ℕ) (lb : String) (e : PyErr), r ≠ 0 →
      calcDcfScenario fcf g r n nc sh pr lb = .error e →
      e.isInvalidDivisor = false) ∧
    (∀ (d : RawFacts) (e : PyErr), ValuationInput.from_dict d = .error e →
      e.isInvalidDivisor = false) := by
  refine ⟨?_, ?_, ?_, ?_, ?_⟩
  · intro p
    exact ⟨by simp [calc_pbr], by decide⟩
  · intro p b hb
    simp [calc_pbr, hb]
  · intro fcf g r nc sh pr n lb hr
    subst hr
    exact ⟨by simp [calcDcfScenario], by decide⟩
  · intro fcf g r nc sh pr n lb e hr he
    rw [calcDcfScenario_error_zero_div fcf g r n nc sh pr lb e hr he]
    rfl
  · intro d e he
    exact missing_not_invalid (from_dict_error_kind d e he)

/-- Witness for C7: Price/Book at a nonzero and at a zero book value. -/
theorem C7_invalid_divisor_witness :
    calc_pbr 3 2 = .ok (3 / 2) ∧
      calc_pbr 3 0 = .error (.valuationError bpsMsg) :=
  ⟨C7_invalid_divisor.2.1 3 2 (by norm_num), (C7_invalid_divisor.1 3).1⟩

/-- C3 counterexample: a normalized input with negative free cash flow on
which all three scenarios succeed, yet the per-share values come out
strictly decreasing in the growth rate (bear −10000, middle −12283, strong
−15000), violating strong ≥ middle ≥ bear. -/
theorem C3_dcf_monotone_cex :
    ValuationInput.from_dict rawNegFcf = .ok inpNegFcf ∧
    (calculate_valuation inpNegFcf).map (fun o => o.dcf.map (fun d => d.per_share)) =
      .ok [-10000, -12283, -15000] ∧
    ¬ ((-15000 : ℚ) ≥ -12283 ∧ (-12283 : ℚ) ≥ -10000) :=
  ⟨from_dict_rawNegFcf, calculate_valuation_inpNegFcf,
    fun h => absurd h.1 (by norm_num)⟩

/-- C3 as amended: for a normalized input with nonnegative free cash flow,
positive discount rate and positive share count, fixed inputs other than
the growth rate, and growth ordering 0 ≤ middle ≤ strong, the three DCF
per-share values in the result satisfy bear ≤ middle ≤ strong. -/
theorem C3_dcf_monotone (inp : ValuationInput) (out : ValuationOutput)
    (hok : calculate_valuation inp = .ok out)
    (hf : 0 ≤ inp.fcf) (hr : 0 < inp.discount_rate) (hs : 0 < inp.shares)
    (hp : inp.stock_price ≠ 0)
    (hg0 : 0 ≤ inp.dcf_growth_middle)
    (hgm : inp.dcf_growth_middle ≤ inp.dcf_growth_strong) :
    ∃ b m s, out.dcf = [b, m, s] ∧
      b.per_share ≤ m.per_share ∧ m.per_share ≤ s.per_share := by
  have hr0 : inp.discount_rate ≠ 0 := ne_of_gt hr
  have hr1 : (1 : ℚ) + inp.discount_rate ≠ 0 := ne_of_gt (by linarith)
  have hs0 : inp.shares ≠ 0 := ne_of_gt hs
  have hb := calcDcfScenario_eq inp.fcf 0 inp.discount_rate inp.dcf_years
    inp.net_cash inp.shares inp.stock_price "弱気" hr0 hr1 hs0 hp
  have hm := calcDcfScenario_eq inp.fcf inp.dcf_growth_middle inp.discount_rate
    inp.dcf_years inp.net_cash inp.shares inp.stock_price "ミドル" hr0 hr1 hs0 hp
  have hstr := calcDcfScenario_eq inp.fcf inp.dcf_growth_strong inp.discount_rate
    inp.dcf_years inp.net_cash inp.shares inp.stock_price "強気" hr0 hr1 hs0 hp
  unfold calculate_valuation at hok
  obtain ⟨pbrv, hpbr, hok⟩ := bind_ok_inv hok
  obtain ⟨db, hdb, hok⟩ := bind_ok_inv hok
  obtain ⟨dm, hdm, hok⟩ := bind_ok_inv hok
  obtain ⟨ds, hds, hok⟩ := bind_ok_inv hok
  simp only [pure, Except.pure, Except.ok.injEq] at hok
  subst hok
  rw [hb] at hdb
  rw [hm] at hdm
  rw [hstr] at hds
  have hdbe := Except.ok.inj hdb
  have hdme := Except.ok.inj hdm
  have hdse := Except.ok.inj hds
  subst hdbe
  subst hdme
  subst hdse
  refine ⟨_, _, _, rfl, ?_, ?_⟩
  · simp only [dcfEntry]
    apply pyRound_mono
    have h1 := dcfEV_mono inp.fcf inp.discount_rate inp.net_cash inp.dcf_years
      hf hr le_rfl hg0
    gcongr
  · simp only [dcfEntry]
    apply pyRound_mono
    have h1 := dcfEV_mono inp.fcf inp.discount_rate inp.net_cash inp.dcf_years
      hf hr hg0 hgm
    gcongr

/-- Witness for the amended C3 on a benign input with zero growth in every
scenario. -/
theorem C3_dcf_monotone_witness :
    ∃ b m s, outFlat.dcf = [b, m, s] ∧
      b.per_share ≤ m.per_share ∧ m.per_share ≤ s.per_share :=
  C3_dcf_monotone inpFlat outFlat calculate_valuation_inpFlat
    (by norm_num [inpFlat]) (by norm_num [inpFlat]) (by norm_num [inpFlat])
    (by norm_num [inpFlat]) (by norm_num [inpFlat]) (by norm_num [inpFlat])
